import Mathlib

/-!
Verification of the `ha_integration_domain` sensor platform
(`custom_components/ha_integration_domain/sensor.py`).

The Python values that flow through the sensor are modelled by a small
inductive type `PyValue`; the coordinator's cached data is one such value.
Attribute/method calls that can fail (calling `.get` on a non-mapping)
are modelled with `Except PyError`.
-/

/-- A Python runtime value as seen by this integration: `None`, booleans,
integers, strings, or a dictionary with string keys (Python dicts keep
unique keys, so an association list queried with first-match `lookup`
models them faithfully). -/
inductive PyValue where
  | none
  | bool (b : Bool)
  | int (n : Int)
  | str (s : String)
  | dict (entries : List (String × PyValue))

/-- Errors a modelled Python expression can raise. Calling a missing
attribute such as `.get` on a non-mapping raises `AttributeError`. -/
inductive PyError where
  | attributeError
deriving DecidableEq

/-- Whether a Python value is a dictionary (a mapping). -/
def PyValue.isDict : PyValue → Bool
  | .dict _ => true
  | _ => false

/-- Python `d.get(key)` for one positional argument: on a dict it returns
the value stored under `key`, or `None` when the key is absent, and never
raises; on any other receiver in `PyValue` (`None`, `bool`, `int`, `str`)
the attribute `.get` does not exist and the call raises `AttributeError`. -/
def pyGet : PyValue → String → Except PyError PyValue
  | .dict entries, k =>
      .ok (match entries.lookup k with
        | some v => v
        | Option.none => PyValue.none)
  | _, _ => .error .attributeError

/-- Python `d.get(key)` with the receiver threaded through as post-state:
`Mapping.get` performs no mutation, so each arm hands back the receiver it
matched. Used to state the frame property of `native_value`. -/
def pyGetSt : PyValue → String → Except PyError PyValue × PyValue
  | .dict entries, k =>
      (.ok (match entries.lookup k with
        | some v => v
        | Option.none => PyValue.none), .dict entries)
  | v, _ => (.error .attributeError, v)

/-- The framework coordinator as this code consumes it: the only attribute
read is `data`, the cached result mapping (which is `None` before the
first successful refresh). -/
structure IntegrationBlueprintDataUpdateCoordinator where
  data : PyValue

/-- `homeassistant.components.sensor.SensorEntityDescription`, restricted
to the fields this integration sets: `key` (required), `translation_key`
and `icon` (optional, default `None`). -/
structure SensorEntityDescription where
  key : String
  translation_key : Option String
  icon : Option String
deriving DecidableEq

/-- `ENTITY_DESCRIPTIONS`: the module-level tuple of entity descriptions
from `sensor.py` (a Python tuple, modelled as a Lean list). -/
def ENTITY_DESCRIPTIONS : List SensorEntityDescription :=
  [ { key := "ha_integration_domain"
      translation_key := some "ha_integration_domain"
      icon := some "mdi:format-quote-close" } ]

/-- `IntegrationBlueprintSensor`: constructed with a coordinator and an
entity description (the two keyword arguments its constructor receives in
`async_setup_entry`; the base classes store them as `self.coordinator`
and `self.entity_description`). -/
structure IntegrationBlueprintSensor where
  coordinator : IntegrationBlueprintDataUpdateCoordinator
  entity_description : SensorEntityDescription

/-- The `native_value` property:
`return self.coordinator.data.get("body")`. -/
def IntegrationBlueprintSensor.native_value
    (self : IntegrationBlueprintSensor) : Except PyError PyValue :=
  pyGet self.coordinator.data "body"

/-- `native_value` with the mutable state (the sensor, holding the
coordinator and its data) threaded through, to state frame properties. -/
def IntegrationBlueprintSensor.native_value_st
    (self : IntegrationBlueprintSensor) :
    Except PyError PyValue × IntegrationBlueprintSensor :=
  let r := pyGetSt self.coordinator.data "body"
  (r.1, { self with coordinator := { self.coordinator with data := r.2 } })

/-- The `hass` context handed to `async_setup_entry`; the function never
touches it, so it is modelled as an opaque token carrying an identifier. -/
structure HomeAssistant where
  ctx_id : Nat
deriving DecidableEq

/-- `entry.runtime_data` as `async_setup_entry` uses it: the only field
read is `coordinator`. -/
structure IntegrationBlueprintData where
  coordinator : IntegrationBlueprintDataUpdateCoordinator

/-- The config entry: `async_setup_entry` reads only `runtime_data`. -/
structure IntegrationBlueprintConfigEntry where
  runtime_data : IntegrationBlueprintData

/-- Calls `async_setup_entry` makes into the host framework, in order.
`add_entities es` is one invocation of the `async_add_entities` callback
with the entities `es`; `await_suspension` marks an `await` point (the
body of `async_setup_entry` contains none). -/
inductive HostCall where
  | add_entities (es : List IntegrationBlueprintSensor)
  | await_suspension

/-- `async_setup_entry`: one call to `async_add_entities` with a sensor
per record of `ENTITY_DESCRIPTIONS`, each built from
`entry.runtime_data.coordinator` and that record. The `hass` parameter is
received but never used; no `await` occurs. -/
def async_setup_entry (hass : HomeAssistant)
    (entry : IntegrationBlueprintConfigEntry) : List HostCall :=
  [ HostCall.add_entities
      (ENTITY_DESCRIPTIONS.map fun entity_description =>
        { coordinator := entry.runtime_data.coordinator
          entity_description := entity_description }) ]

/-- All entities handed to the host across the calls of a trace, in
registration order. -/
def registered_entities (calls : List HostCall) :
    List IntegrationBlueprintSensor :=
  calls.foldr
    (fun c acc =>
      match c with
      | .add_entities es => es ++ acc
      | .await_suspension => acc)
    []

/-- C1: for every coordinator whose data mapping contains the key "body"
with value V, the sensor's `native_value` property returns exactly V. -/
theorem native_value_of_body_present
    (s : IntegrationBlueprintSensor)
    (entries : List (String × PyValue)) (V : PyValue)
    (hd : s.coordinator.data = PyValue.dict entries)
    (hv : entries.lookup "body" = some V) :
    s.native_value = Except.ok V := by
  unfold IntegrationBlueprintSensor.native_value
  rw [hd]
  simp [pyGet, hv]

/-- Witness for C1: a concrete sensor whose data holds `"body" ↦ "hi"`. -/
theorem native_value_of_body_present_witness :
    IntegrationBlueprintSensor.native_value
      { coordinator := { data := PyValue.dict [("body", PyValue.str "hi")] }
        entity_description := { key := "k", translation_key := Option.none
                                icon := Option.none } }
      = Except.ok (PyValue.str "hi") :=
  native_value_of_body_present _ [("body", PyValue.str "hi")]
    (PyValue.str "hi") rfl rfl

/-- C2: for every coordinator whose data mapping does not contain the key
"body", `native_value` returns Python `None` and does not raise. -/
theorem native_value_of_body_absent
    (s : IntegrationBlueprintSensor)
    (entries : List (String × PyValue))
    (hd : s.coordinator.data = PyValue.dict entries)
    (hv : entries.lookup "body" = Option.none) :
    s.native_value = Except.ok PyValue.none := by
  unfold IntegrationBlueprintSensor.native_value
  rw [hd]
  simp [pyGet, hv]

/-- Witness for C2: a concrete sensor whose data mapping lacks "body". -/
theorem native_value_of_body_absent_witness :
    IntegrationBlueprintSensor.native_value
      { coordinator := { data := PyValue.dict [("title", PyValue.str "t")] }
        entity_description := { key := "k", translation_key := Option.none
                                icon := Option.none } }
      = Except.ok PyValue.none :=
  native_value_of_body_absent _ [("title", PyValue.str "t")] rfl rfl

/-- C3: when the coordinator's `data` is `None` or otherwise not a
mapping (for example before the first successful refresh), evaluating
`native_value` raises `AttributeError` instead of returning an absent
value. -/
theorem native_value_raises_on_non_mapping
    (s : IntegrationBlueprintSensor)
    (hd : s.coordinator.data.isDict = false) :
    s.native_value = Except.error PyError.attributeError := by
  unfold IntegrationBlueprintSensor.native_value
  cases h : s.coordinator.data <;>
    simp_all [PyValue.isDict, pyGet]

/-- Witness for C3: a sensor whose coordinator data is `None`. -/
theorem native_value_raises_on_non_mapping_witness :
    IntegrationBlueprintSensor.native_value
      { coordinator := { data := PyValue.none }
        entity_description := { key := "k", translation_key := Option.none
                                icon := Option.none } }
      = Except.error PyError.attributeError :=
  native_value_raises_on_non_mapping _ rfl

/-- C4: `async_setup_entry` registers, via the provided callback, exactly
one sensor per record of `ENTITY_DESCRIPTIONS` (hence exactly one entity
in total), each built with `entry.runtime_data.coordinator` and that
record as its entity description. -/
theorem async_setup_entry_registers_entities
    (hass : HomeAssistant) (entry : IntegrationBlueprintConfigEntry) :
    registered_entities (async_setup_entry hass entry)
      = ENTITY_DESCRIPTIONS.map (fun d =>
          { coordinator := entry.runtime_data.coordinator
            entity_description := d })
    ∧ (registered_entities (async_setup_entry hass entry)).length
        = ENTITY_DESCRIPTIONS.length
    ∧ (registered_entities (async_setup_entry hass entry)).length = 1 :=
  ⟨rfl, rfl, rfl⟩

/-- C5: `ENTITY_DESCRIPTIONS` is a static tuple of exactly one record,
with key "ha_integration_domain", translation key
"ha_integration_domain", and icon "mdi:format-quote-close". -/
theorem entity_descriptions_contents :
    ENTITY_DESCRIPTIONS.length = 1
    ∧ ENTITY_DESCRIPTIONS
        = [ { key := "ha_integration_domain"
              translation_key := some "ha_integration_domain"
              icon := some "mdi:format-quote-close" } ] :=
  ⟨rfl, rfl⟩

/-- C6: reading `native_value` leaves the coordinator's data unchanged
(the accessor is a pure read), and the value read agrees with
`native_value`. -/
theorem native_value_preserves_state
    (s : IntegrationBlueprintSensor) :
    s.native_value_st.2 = s ∧ s.native_value_st.1 = s.native_value := by
  obtain ⟨⟨d⟩, ed⟩ := s
  cases d <;> exact ⟨rfl, rfl⟩

/-- C7: `native_value` is a deterministic function of the coordinator's
data alone: two sensors whose coordinators hold equal data mappings
report equal values, whatever their other state. -/
theorem native_value_deterministic
    (s₁ s₂ : IntegrationBlueprintSensor)
    (h : s₁.coordinator.data = s₂.coordinator.data) :
    s₁.native_value = s₂.native_value := by
  unfold IntegrationBlueprintSensor.native_value
  rw [h]

/-- Witness for C7: two sensors with the same data but different entity
descriptions report the same value. -/
theorem native_value_deterministic_witness :
    IntegrationBlueprintSensor.native_value
      { coordinator := { data := PyValue.dict [("body", PyValue.str "b")] }
        entity_description := { key := "k1", translation_key := Option.none
                                icon := Option.none } }
    = IntegrationBlueprintSensor.native_value
      { coordinator := { data := PyValue.dict [("body", PyValue.str "b")] }
        entity_description := { key := "k2", translation_key := some "t"
                                icon := some "mdi:x" } } :=
  native_value_deterministic _ _ rfl

/-- C8: neither `async_setup_entry` nor `native_value` suspends or
blocks: the setup trace contains no await point, and both functions are
total, producing a result on every input. -/
theorem setup_and_native_value_terminate
    (hass : HomeAssistant) (entry : IntegrationBlueprintConfigEntry)
    (s : IntegrationBlueprintSensor) :
    HostCall.await_suspension ∉ async_setup_entry hass entry
    ∧ (∃ calls, async_setup_entry hass entry = calls)
    ∧ (∃ v, s.native_value = v) := by
  refine ⟨?_, ⟨_, rfl⟩, ⟨_, rfl⟩⟩
  simp [async_setup_entry]

/-- C9: `native_value` returns the value stored under "body" verbatim,
with no conversion, for every value V including non-strings. -/
theorem native_value_verbatim
    (s : IntegrationBlueprintSensor)
    (entries : List (String × PyValue)) (V : PyValue)
    (hd : s.coordinator.data = PyValue.dict entries)
    (hv : entries.lookup "body" = some V) :
    s.native_value = Except.ok V := by
  unfold IntegrationBlueprintSensor.native_value
  rw [hd]
  simp [pyGet, hv]

/-- Witness for C9: a non-string value (the integer 42) stored under
"body" is returned as-is, despite the declared return type `str`. -/
theorem native_value_verbatim_witness :
    IntegrationBlueprintSensor.native_value
      { coordinator := { data := PyValue.dict [("body", PyValue.int 42)] }
        entity_description := { key := "k", translation_key := Option.none
                                icon := Option.none } }
      = Except.ok (PyValue.int 42) :=
  native_value_verbatim _ [("body", PyValue.int 42)] (PyValue.int 42) rfl rfl

/-- C10: the registration performed by `async_setup_entry` does not
depend on the `hass` argument: any two host contexts yield the same
trace for the same entry. -/
theorem async_setup_entry_ignores_hass
    (h₁ h₂ : HomeAssistant) (entry : IntegrationBlueprintConfigEntry) :
    async_setup_entry h₁ entry = async_setup_entry h₂ entry :=
  rfl
